import Mathlib

/-!
Shallow embedding of the Weather-predictor grid-world simulator.

`src/env.py` defines `StaticGridEnv`, a fixed 10x10 grid with obstacle
cells `[(1,1),(2,2),(3,3),(4,4),(5,5)]`, goal `(9,9)`, and an agent
position set by `reset` (rejection sampling over the grid using the
seeded numpy random stream) and updated by `step` (four integer action
codes; boundary and obstacle blocking; rewards -1 / -5 / +20).

`src/utils.py` defines `plot_comparison_with_baseline`, whose only logic
of interest here is the validation of the `algorithm` argument and the
filtering of the run table before the (purely presentational) chart is
produced.

Positions are modelled as pairs of `Int` (Python integers), actions as
`Int`, the numpy random stream consumed by `reset` as a function
`Nat -> Int x Int` giving the successive sampled coordinate pairs, and
the pygame/matplotlib drawing as an abstract chart value.
-/

namespace WeatherPredictor

/-- Coordinates on the grid: a pair of Python integers `(row, col)`. -/
abbrev Cell : Type := ℤ × ℤ

/-- Obstacle list fixed by `StaticGridEnv.__init__`:
`self.obstacles = [(1, 1), (2, 2), (3, 3), (4, 4), (5, 5)]`. -/
def obstaclesList : List Cell := [(1, 1), (2, 2), (3, 3), (4, 4), (5, 5)]

/-- Goal cell fixed by `StaticGridEnv.__init__`:
`self.goal = (self.grid_size - 1, self.grid_size - 1)` with `grid_size = 10`. -/
def goalCell : Cell := (10 - 1, 10 - 1)

/-- The if/elif chain of `StaticGridEnv.step` that computes the candidate
next position `(next_x, next_y)` from the current position and the action:
`0` moves up (`x > 0`), `1` down (`x < grid_size - 1`), `2` left (`y > 0`),
`3` right (`y < grid_size - 1`); any other action leaves the position as is. -/
def nextCell (grid_size : ℤ) (p : Cell) (action : ℤ) : Cell :=
  if action = 0 ∧ 0 < p.1 then (p.1 - 1, p.2)
  else if action = 1 ∧ p.1 < grid_size - 1 then (p.1 + 1, p.2)
  else if action = 2 ∧ 0 < p.2 then (p.1, p.2 - 1)
  else if action = 3 ∧ p.2 < grid_size - 1 then (p.1, p.2 + 1)
  else p

/-- Body of `StaticGridEnv.step` given the environment constants and the
current position: compute the candidate cell, revert with reward -5 if it
is an obstacle (otherwise reward -1), then override with reward 20 and
`done = true` when the stored position equals the goal.  Returns the
`(position, reward, done)` triple (the `info` dict is always empty and
is omitted). -/
def stepCore (grid_size : ℤ) (obstacles : List Cell) (goal : Cell)
    (p : Cell) (action : ℤ) : Cell × ℤ × Bool :=
  let n := nextCell grid_size p action
  let moved : Cell × ℤ := if n ∈ obstacles then (p, -5) else (n, -1)
  if moved.1 = goal then (moved.1, 20, true) else (moved.1, moved.2, false)

/-- `step` at the constants fixed by the constructor (grid size 10, the
five obstacles, goal `(9,9)`). -/
def stepResult (p : Cell) (action : ℤ) : Cell × ℤ × Bool :=
  stepCore 10 obstaclesList goalCell p action

/-- Position within grid bounds: `0 ≤ row, col < 10`. -/
def inBounds (p : Cell) : Prop :=
  0 ≤ p.1 ∧ p.1 < 10 ∧ 0 ≤ p.2 ∧ p.2 < 10

instance (p : Cell) : Decidable (inBounds p) :=
  inferInstanceAs (Decidable (0 ≤ p.1 ∧ p.1 < 10 ∧ 0 ≤ p.2 ∧ p.2 < 10))

/-- Acceptance condition of the rejection-sampling loop in
`StaticGridEnv.reset`: the sampled pair is neither an obstacle nor the goal. -/
def validStart (obstacles : List Cell) (goal : Cell) (p : Cell) : Prop :=
  p ∉ obstacles ∧ p ≠ goal

instance (obstacles : List Cell) (goal p : Cell) :
    Decidable (validStart obstacles goal p) :=
  inferInstanceAs (Decidable (p ∉ obstacles ∧ p ≠ goal))

/-- State of a `StaticGridEnv` instance.  The fields mirror the attributes
set in `__init__`; the numpy global random stream consumed by `reset` is
modelled by the stream `rng` of sampled coordinate pairs together with a
cursor `rngIdx` into it (`np.random.seed(seed)` determines the stream). -/
structure StaticGridEnv where
  grid_size : ℤ
  cell_size : ℤ
  obstacles : List Cell
  goal : Cell
  state : Option Cell
  action_space : ℤ
  observation_space : ℤ × ℤ
  rng : ℕ → Cell
  rngIdx : ℕ

/-- `StaticGridEnv.__init__(seed)`: the fixed grid constants, `state = None`,
and the random source deterministically seeded — modelled by passing the
stream of coordinate pairs that the seeded generator produces. -/
def mkSeeded (s : ℕ → Cell) : StaticGridEnv :=
  { grid_size := 10
    cell_size := 64
    obstacles := obstaclesList
    goal := (10 - 1, 10 - 1)
    state := none
    action_space := 4
    observation_space := (10, 10)
    rng := s
    rngIdx := 0 }

/-- `StaticGridEnv.reset`: draw coordinate pairs from the random stream
until one is neither an obstacle nor the goal, store it as the agent
position, and return it.  The unbounded `while True` loop is total exactly
when a valid pair exists in the remaining stream, which is taken as the
hypothesis `h`; the first valid pair is found with `Nat.find`. -/
def StaticGridEnv.reset (e : StaticGridEnv)
    (h : ∃ k, validStart e.obstacles e.goal (e.rng (e.rngIdx + k))) :
    Cell × StaticGridEnv :=
  let k := Nat.find h
  let p := e.rng (e.rngIdx + k)
  (p, { e with state := some p, rngIdx := e.rngIdx + k + 1 })

/-- `StaticGridEnv.step`: `x, y = self.state` fails with a `TypeError` when
`state` is still `None` (before the first `reset`), which is modelled by
returning `none`; otherwise the transition is `stepCore` on the instance
constants and the stored position is updated. -/
def StaticGridEnv.step (e : StaticGridEnv) (action : ℤ) :
    Option ((Cell × ℤ × Bool) × StaticGridEnv) :=
  match e.state with
  | none => none
  | some p =>
      let r := stepCore e.grid_size e.obstacles e.goal p action
      some (r, { e with state := some r.1 })

/-- Observations of a sequence of `step` calls on an environment, stopping
if a call fails. -/
def runTrajectory : StaticGridEnv → List ℤ → List (Cell × ℤ × Bool)
  | _, [] => []
  | e, a :: rest =>
      match e.step a with
      | none => []
      | some (r, e2) => r :: runTrajectory e2 rest

/-! Outcome predicates used to classify a single `step` call, following the
wording of the spec's three-way (and, as it turns out, four-way)
case analysis of a transition from a non-terminal position. -/

/-- The result position is the start position shifted by exactly one cell in
the direction the action requests. -/
def movedOne (p : Cell) (a : ℤ) (q : Cell) : Prop :=
  (a = 0 ∧ q = (p.1 - 1, p.2)) ∨ (a = 1 ∧ q = (p.1 + 1, p.2)) ∨
  (a = 2 ∧ q = (p.1, p.2 - 1)) ∨ (a = 3 ∧ q = (p.1, p.2 + 1))

instance (p : Cell) (a : ℤ) (q : Cell) : Decidable (movedOne p a q) :=
  inferInstanceAs (Decidable (_ ∨ _ ∨ _ ∨ _))

/-- Obstacle-blocked outcome: position unchanged, reward -5. -/
def outcomeObstacle (p : Cell) (r : Cell × ℤ × Bool) : Prop :=
  r.1 = p ∧ r.2.1 = -5

instance (p : Cell) (r : Cell × ℤ × Bool) : Decidable (outcomeObstacle p r) :=
  inferInstanceAs (Decidable (_ ∧ _))

/-- Boundary-blocked outcome: position unchanged, reward -1. -/
def outcomeBoundary (p : Cell) (r : Cell × ℤ × Bool) : Prop :=
  r.1 = p ∧ r.2.1 = -1

instance (p : Cell) (r : Cell × ℤ × Bool) : Decidable (outcomeBoundary p r) :=
  inferInstanceAs (Decidable (_ ∧ _))

/-- Ordinary move outcome: position changed by exactly one cell along the
requested axis, reward -1. -/
def outcomeMove (p : Cell) (a : ℤ) (r : Cell × ℤ × Bool) : Prop :=
  movedOne p a r.1 ∧ r.2.1 = -1

instance (p : Cell) (a : ℤ) (r : Cell × ℤ × Bool) : Decidable (outcomeMove p a r) :=
  inferInstanceAs (Decidable (_ ∧ _))

/-- Goal-reaching move outcome: position changed by exactly one cell along the
requested axis onto the goal cell, reward 20, episode done. -/
def outcomeGoalReach (p : Cell) (a : ℤ) (r : Cell × ℤ × Bool) : Prop :=
  movedOne p a r.1 ∧ r.1 = goalCell ∧ r.2.1 = 20 ∧ r.2.2 = true

instance (p : Cell) (a : ℤ) (r : Cell × ℤ × Bool) :
    Decidable (outcomeGoalReach p a r) :=
  inferInstanceAs (Decidable (_ ∧ _ ∧ _ ∧ _))

/-- Exactly one of three propositions holds. -/
def exactlyOne3 (A B C : Prop) : Prop :=
  (A ∧ ¬B ∧ ¬C) ∨ (¬A ∧ B ∧ ¬C) ∨ (¬A ∧ ¬B ∧ C)

instance (A B C : Prop) [Decidable A] [Decidable B] [Decidable C] :
    Decidable (exactlyOne3 A B C) :=
  inferInstanceAs (Decidable (_ ∨ _ ∨ _))

/-- Exactly one of four propositions holds. -/
def exactlyOne4 (A B C D : Prop) : Prop :=
  (A ∧ ¬B ∧ ¬C ∧ ¬D) ∨ (¬A ∧ B ∧ ¬C ∧ ¬D) ∨
  (¬A ∧ ¬B ∧ C ∧ ¬D) ∨ (¬A ∧ ¬B ∧ ¬C ∧ D)

instance (A B C D : Prop) [Decidable A] [Decidable B] [Decidable C] [Decidable D] :
    Decidable (exactlyOne4 A B C D) :=
  inferInstanceAs (Decidable (_ ∨ _ ∨ _ ∨ _))

/-- The spec's three-way classification of `step` from position `p` under
action `a`: obstacle-blocked, boundary-blocked, or an ordinary move. -/
def threeOutcomes (p : Cell) (a : ℤ) : Prop :=
  exactlyOne3 (outcomeObstacle p (stepResult p a))
    (outcomeBoundary p (stepResult p a))
    (outcomeMove p a (stepResult p a))

instance (p : Cell) (a : ℤ) : Decidable (threeOutcomes p a) :=
  inferInstanceAs (Decidable (exactlyOne3 _ _ _))

/-- Four-way classification: the three outcomes above plus the goal-reaching
move with reward 20. -/
def fourOutcomes (p : Cell) (a : ℤ) : Prop :=
  exactlyOne4 (outcomeObstacle p (stepResult p a))
    (outcomeBoundary p (stepResult p a))
    (outcomeMove p a (stepResult p a))
    (outcomeGoalReach p a (stepResult p a))

instance (p : Cell) (a : ℤ) : Decidable (fourOutcomes p a) :=
  inferInstanceAs (Decidable (exactlyOne4 _ _ _ _))

/-! The run table and chart of `plot_comparison_with_baseline` in
`src/utils.py`. -/

/-- Row of the aggregated run table (`df_learning` in
`plot_comparison_with_baseline`): indexed by availability and accuracy with
the three aggregated columns.  Float values are modelled as rationals. -/
structure RunRow where
  availability : ℚ
  accuracy : ℚ
  avgReward : ℚ
  successRate : ℚ
  avgLearningSpeed : ℚ

/-- Abstract result of the chart-producing tail of
`plot_comparison_with_baseline`: the filtered rows and constants the chart
is drawn from.  Drawing itself is presentational and carries no further
logic. -/
structure ComparisonChart where
  selected : List RunRow
  baseline : ℚ × ℚ × ℚ
  algorithm : String
  availability : ℚ

/-- `plot_comparison_with_baseline` from `src/utils.py`: the algorithm label
is validated first (`ValueError` unless it is "Q-learning" or "SARSA",
modelled as `Except.error`); only then are the default accuracies taken from
the table and the table filtered by availability and accuracy, and the chart
produced. -/
def plot_comparison_with_baseline (availability : ℚ) (df_learning : List RunRow)
    (baseline_learning : ℚ × ℚ × ℚ) (accuracies : Option (List ℚ))
    (algorithm : String) : Except String ComparisonChart :=
  if algorithm = "Q-learning" ∨ algorithm = "SARSA" then
    let accs := match accuracies with
      | none => (df_learning.map RunRow.accuracy).dedup
      | some l => l
    let selected := df_learning.filter fun r =>
      decide (r.availability = availability ∧ r.accuracy ∈ accs)
    Except.ok { selected := selected, baseline := baseline_learning,
                algorithm := algorithm, availability := availability }
  else
    Except.error "Algorithm must be either Q-learning or SARSA"

/-! Concrete sample data used by the witness theorems. -/

/-- Concrete sample stream used by witnesses: always samples `(0, 0)`. -/
def sampleStream : ℕ → Cell := fun _ => (0, 0)

/-- A second stream, pointwise equal to `sampleStream` but syntactically
different. -/
def sampleStream2 : ℕ → Cell := fun _ => (0 + 0, 0)

/-- The sample stream immediately yields a valid start position. -/
def sampleSeedOk : ∃ k, validStart (mkSeeded sampleStream).obstacles
    (mkSeeded sampleStream).goal
    ((mkSeeded sampleStream).rng ((mkSeeded sampleStream).rngIdx + k)) :=
  ⟨0, by decide⟩

/-- Same for the second stream. -/
def sampleSeedOk2 : ∃ k, validStart (mkSeeded sampleStream2).obstacles
    (mkSeeded sampleStream2).goal
    ((mkSeeded sampleStream2).rng ((mkSeeded sampleStream2).rngIdx + k)) :=
  ⟨0, by decide⟩

/-- Concrete environment whose `state` has been set, for witnesses. -/
def sampleEnv : StaticGridEnv := { mkSeeded sampleStream with state := some (0, 0) }

/-- Rejection sampling on `sampleEnv` succeeds immediately. -/
def sampleSeedOkE : ∃ k, validStart sampleEnv.obstacles sampleEnv.goal
    (sampleEnv.rng (sampleEnv.rngIdx + k)) :=
  ⟨0, by decide⟩

/-- `sampleEnv` after a blocked step: position unchanged. -/
def sampleEnvStepped : StaticGridEnv := { sampleEnv with state := some (0, 0) }

/-! Helper lemmas about a single `step` transition, shared by the claims. -/

/-- The stored position after `step` is the candidate cell unless that cell
is an obstacle, in which case the previous position is kept. -/
lemma stepResult_fst (p : Cell) (a : ℤ) :
    (stepResult p a).1 =
      if nextCell 10 p a ∈ obstaclesList then p else nextCell 10 p a := by
  simp only [stepResult, stepCore]
  split_ifs <;> simp_all

/-- When the stored position after `step` is the goal, the reward is
overridden to 20 and the episode terminates. -/
lemma stepResult_goal_case (p : Cell) (a : ℤ) (h : (stepResult p a).1 = goalCell) :
    (stepResult p a).2.1 = 20 ∧ (stepResult p a).2.2 = true := by
  simp only [stepResult, stepCore] at *
  split_ifs at * with h1 h2 <;> simp_all

/-- When the stored position after `step` is not the goal, the episode
continues. -/
lemma stepResult_not_goal_case (p : Cell) (a : ℤ)
    (h : (stepResult p a).1 ≠ goalCell) :
    (stepResult p a).2.2 = false := by
  simp only [stepResult, stepCore] at *
  split_ifs at * with h1 h2 <;> simp_all

/-- The candidate cell computed by the guarded moves stays within the grid. -/
lemma nextCell_inBounds (x y a : ℤ)
    (hx0 : 0 ≤ x) (hx : x < 10) (hy0 : 0 ≤ y) (hy : y < 10) :
    inBounds (nextCell 10 (x, y) a) := by
  unfold nextCell
  split_ifs <;> unfold inBounds <;> dsimp only <;> omega

/-! Claim C1. -/

/-- C1, counterexample: at the non-terminal position `(8,9)` (in bounds, not
an obstacle, not the goal) with the valid action `1` (down), `step` moves the
agent onto the goal and returns reward 20, so none of the claim's three
outcomes (obstacle-blocked / boundary-blocked / ordinary move with reward -1)
holds: the "exactly one of three" classification is false there. -/
theorem step_three_outcomes_fails_at_8_9 :
    inBounds (8, 9) ∧ ((8 : ℤ), (9 : ℤ)) ∉ obstaclesList ∧
    ((8 : ℤ), (9 : ℤ)) ≠ goalCell ∧
    ((1 : ℤ) = 0 ∨ (1 : ℤ) = 1 ∨ (1 : ℤ) = 2 ∨ (1 : ℤ) = 3) ∧
    ¬ threeOutcomes (8, 9) 1 := by
  decide

/-- C1, amended: for every non-terminal position (in bounds, not an obstacle,
not the goal) and every action in `{0,1,2,3}`, `step` satisfies exactly one
of FOUR outcomes: position unchanged with reward -5 (obstacle-blocked),
position unchanged with reward -1 (boundary-blocked), position changed by
exactly one cell along the requested axis with reward -1 (ordinary move), or
position changed by exactly one cell along the requested axis onto the goal
with reward 20 (goal-reaching move). -/
theorem step_four_outcomes (x y a : ℤ)
    (hx0 : 0 ≤ x) (hx : x < 10) (hy0 : 0 ≤ y) (hy : y < 10)
    (hobs : ((x, y) : Cell) ∉ obstaclesList) (hgoal : ((x, y) : Cell) ≠ goalCell)
    (ha : a = 0 ∨ a = 1 ∨ a = 2 ∨ a = 3) :
    fourOutcomes (x, y) a := by
  rcases ha with rfl | rfl | rfl | rfl <;>
    (interval_cases x <;> interval_cases y <;> revert hobs hgoal <;> decide)

/-- C1, witness for the amended theorem at position `(0,5)`, action 0. -/
theorem step_four_outcomes_witness : fourOutcomes (0, 5) 0 :=
  step_four_outcomes 0 5 0 (by decide) (by decide) (by decide) (by decide)
    (by decide) (by decide) (by decide)

/-- C2: for every in-bounds non-obstacle position and every integer action,
if the position resulting from `step` equals the goal cell then the reward is
20 and `done = true`, otherwise `done = false`; and the scenario from `(8,9)`
with action 1 (down) returns position `(9,9)`, reward 20, `done = true`. -/
theorem step_goal_override :
    (∀ (p : Cell) (a : ℤ), inBounds p → p ∉ obstaclesList →
      (((stepResult p a).1 = goalCell →
          (stepResult p a).2.1 = 20 ∧ (stepResult p a).2.2 = true) ∧
       ((stepResult p a).1 ≠ goalCell → (stepResult p a).2.2 = false))) ∧
    stepResult (8, 9) 1 = ((9, 9), 20, true) :=
  ⟨fun p a _ _ => ⟨stepResult_goal_case p a, stepResult_not_goal_case p a⟩, by decide⟩

/-- C2, witness at position `(8,9)`, action 1. -/
theorem step_goal_override_witness :
    (stepResult (8, 9) 1).2.1 = 20 ∧ (stepResult (8, 9) 1).2.2 = true :=
  (step_goal_override.1 (8, 9) 1 (by decide) (by decide)).1 (by decide)

/-- C3: for every in-bounds non-obstacle non-goal position and action in
`{0,1,2,3}`, if the computed next cell is an obstacle then `step` leaves the
position unchanged and returns reward -5 with `done = false`; and the
scenario from `(0,1)` with action 1 (down, candidate `(1,1)`) returns
position `(0,1)`, reward -5, `done = false`. -/
theorem step_obstacle_block :
    (∀ (p : Cell) (a : ℤ), inBounds p → p ∉ obstaclesList → p ≠ goalCell →
      (a = 0 ∨ a = 1 ∨ a = 2 ∨ a = 3) →
      nextCell 10 p a ∈ obstaclesList →
      stepResult p a = (p, -5, false)) ∧
    stepResult (0, 1) 1 = ((0, 1), -5, false) := by
  constructor
  · intro p a _ _ hgoal _ hmem
    simp only [stepResult, stepCore]
    rw [if_pos hmem, if_neg]
    exact hgoal
  · decide

/-- C3, witness at position `(0,1)`, action 1. -/
theorem step_obstacle_block_witness : stepResult (0, 1) 1 = ((0, 1), -5, false) :=
  step_obstacle_block.1 (0, 1) 1 (by decide) (by decide) (by decide)
    (by decide) (by decide)

/-- C4: after any `reset`, the returned position is within grid bounds, not
an obstacle, and not the goal; it equals the newly stored agent position, and
it is the first coordinate pair in the random stream that is neither an
obstacle nor the goal (rejection sampling). -/
theorem reset_valid_and_first :
    ∀ (s : ℕ → Cell), (∀ n, inBounds (s n)) →
    ∀ (h : ∃ k, validStart (mkSeeded s).obstacles (mkSeeded s).goal
        ((mkSeeded s).rng ((mkSeeded s).rngIdx + k))),
      inBounds ((mkSeeded s).reset h).1 ∧
      ((mkSeeded s).reset h).1 ∉ obstaclesList ∧
      ((mkSeeded s).reset h).1 ≠ goalCell ∧
      ((mkSeeded s).reset h).2.state = some ((mkSeeded s).reset h).1 ∧
      ∃ k, ((mkSeeded s).reset h).1 = s k ∧
        validStart obstaclesList goalCell (s k) ∧
        ∀ j, j < k → ¬ validStart obstaclesList goalCell (s j) := by
  intro s hin h
  have hfind : validStart obstaclesList goalCell (s (0 + Nat.find h)) := Nat.find_spec h
  refine ⟨hin _, hfind.1, hfind.2, rfl, 0 + Nat.find h, rfl, hfind, ?_⟩
  intro j hj hv
  have hj2 : j < Nat.find h := by omega
  have hv2 : validStart obstaclesList goalCell (s (0 + j)) := by
    rw [Nat.zero_add]
    exact hv
  exact Nat.find_min h hj2 hv2

/-- C4, witness with the constant sample stream. -/
theorem reset_valid_and_first_witness :
    inBounds ((mkSeeded sampleStream).reset sampleSeedOk).1 ∧
    ((mkSeeded sampleStream).reset sampleSeedOk).1 ∉ obstaclesList ∧
    ((mkSeeded sampleStream).reset sampleSeedOk).1 ≠ goalCell ∧
    ((mkSeeded sampleStream).reset sampleSeedOk).2.state =
      some ((mkSeeded sampleStream).reset sampleSeedOk).1 ∧
    ∃ k, ((mkSeeded sampleStream).reset sampleSeedOk).1 = sampleStream k ∧
      validStart obstaclesList goalCell (sampleStream k) ∧
      ∀ j, j < k → ¬ validStart obstaclesList goalCell (sampleStream j) :=
  reset_valid_and_first sampleStream
    (fun _ => (by decide : inBounds ((0 : ℤ), 0))) sampleSeedOk

/-- C5: an integer action code outside `{0,1,2,3}` is not rejected: from an
in-bounds non-obstacle non-goal position, `step` leaves the position
unchanged and returns the normal step penalty -1 with `done = false`, and at
the environment level the call returns normally (no error). -/
theorem step_invalid_action_noop :
    ∀ (p : Cell) (a : ℤ), inBounds p → p ∉ obstaclesList → p ≠ goalCell →
      a ≠ 0 → a ≠ 1 → a ≠ 2 → a ≠ 3 →
      stepResult p a = (p, -1, false) ∧
      (∀ e : StaticGridEnv, e.grid_size = 10 → e.obstacles = obstaclesList →
        e.goal = goalCell → e.state = some p →
        e.step a = some ((p, -1, false), { e with state := some p })) := by
  intro p a _ hobs hgoal h0 h1 h2 h3
  have hn : nextCell 10 p a = p := by
    unfold nextCell
    split_ifs with g0 g1 g2 g3 <;> first | rfl | (exfalso; tauto)
  have hres : stepResult p a = (p, -1, false) := by
    simp only [stepResult, stepCore, hn]
    rw [if_neg hobs, if_neg]
    exact hgoal
  refine ⟨hres, ?_⟩
  intro e hgs hob hg hst
  unfold StaticGridEnv.step
  rw [hst]
  simp only [hgs, hob, hg]
  rw [show stepCore 10 obstaclesList goalCell p a = (p, -1, false) from hres]

/-- C5, witness at position `(0,0)` with the malformed action code 7. -/
theorem step_invalid_action_noop_witness :
    stepResult (0, 0) 7 = ((0, 0), -1, false) ∧
    sampleEnv.step 7 =
      some ((((0 : ℤ), (0 : ℤ)), -1, false), { sampleEnv with state := some (0, 0) }) :=
  ⟨(step_invalid_action_noop (0, 0) 7 (by decide) (by decide) (by decide) (by decide)
      (by decide) (by decide) (by decide)).1,
   (step_invalid_action_noop (0, 0) 7 (by decide) (by decide) (by decide) (by decide)
      (by decide) (by decide) (by decide)).2 sampleEnv rfl rfl rfl rfl⟩

/-- C6: two environments seeded so that their random sources produce the same
stream of samples return the same position from `reset` and identical
trajectories of `(position, reward, done)` observations for identical action
sequences: `reset` and `step` are deterministic functions of the random
source's state and the inputs. -/
theorem seeded_determinism :
    ∀ (s1 s2 : ℕ → Cell), (∀ n, s1 n = s2 n) →
    ∀ (h1 : ∃ k, validStart (mkSeeded s1).obstacles (mkSeeded s1).goal
          ((mkSeeded s1).rng ((mkSeeded s1).rngIdx + k)))
      (h2 : ∃ k, validStart (mkSeeded s2).obstacles (mkSeeded s2).goal
          ((mkSeeded s2).rng ((mkSeeded s2).rngIdx + k)))
      (acts : List ℤ),
      ((mkSeeded s1).reset h1).1 = ((mkSeeded s2).reset h2).1 ∧
      runTrajectory ((mkSeeded s1).reset h1).2 acts =
        runTrajectory ((mkSeeded s2).reset h2).2 acts := by
  intro s1 s2 hpt h1 h2 acts
  have hs : s1 = s2 := funext hpt
  subst hs
  exact ⟨rfl, rfl⟩

/-- C6, witness with two pointwise-equal sample streams and the action
sequence `[0, 1, 2, 3]`. -/
theorem seeded_determinism_witness :
    ((mkSeeded sampleStream).reset sampleSeedOk).1 =
      ((mkSeeded sampleStream2).reset sampleSeedOk2).1 ∧
    runTrajectory ((mkSeeded sampleStream).reset sampleSeedOk).2 [0, 1, 2, 3] =
      runTrajectory ((mkSeeded sampleStream2).reset sampleSeedOk2).2 [0, 1, 2, 3] :=
  seeded_determinism sampleStream sampleStream2
    (fun _ => (by decide : ((0 : ℤ), (0 : ℤ)) = ((0 : ℤ) + 0, 0)))
    sampleSeedOk sampleSeedOk2 [0, 1, 2, 3]

/-- C7: if the agent position is within grid bounds and not an obstacle
before `step` with any integer action, the position after the call is also
within bounds and not an obstacle; `reset` establishes the same invariant. -/
theorem step_position_invariant :
    (∀ (x y a : ℤ), inBounds (x, y) → ((x, y) : Cell) ∉ obstaclesList →
      inBounds (stepResult (x, y) a).1 ∧ (stepResult (x, y) a).1 ∉ obstaclesList) ∧
    (∀ (s : ℕ → Cell), (∀ n, inBounds (s n)) →
      ∀ (h : ∃ k, validStart (mkSeeded s).obstacles (mkSeeded s).goal
          ((mkSeeded s).rng ((mkSeeded s).rngIdx + k))),
        inBounds ((mkSeeded s).reset h).1 ∧
        ((mkSeeded s).reset h).1 ∉ obstaclesList) := by
  constructor
  · intro x y a hb hobs
    obtain ⟨h1, h2, h3, h4⟩ := hb
    rw [stepResult_fst]
    split_ifs with hm
    · exact ⟨⟨h1, h2, h3, h4⟩, hobs⟩
    · exact ⟨nextCell_inBounds x y a h1 h2 h3 h4, hm⟩
  · intro s hin h
    have hfind : validStart obstaclesList goalCell (s (0 + Nat.find h)) :=
      Nat.find_spec h
    exact ⟨hin _, hfind.1⟩

/-- C7, witness at position `(0,0)`, action 1, and a reset on the sample
stream. -/
theorem step_position_invariant_witness :
    (inBounds (stepResult (0, 0) 1).1 ∧ (stepResult (0, 0) 1).1 ∉ obstaclesList) ∧
    (inBounds ((mkSeeded sampleStream).reset sampleSeedOk).1 ∧
      ((mkSeeded sampleStream).reset sampleSeedOk).1 ∉ obstaclesList) :=
  ⟨step_position_invariant.1 0 0 1 (by decide) (by decide),
   step_position_invariant.2 sampleStream
     (fun _ => (by decide : inBounds ((0 : ℤ), 0))) sampleSeedOk⟩

/-- C8: neither `reset` nor `step` changes the grid size, the obstacle set,
the goal cell, or any other configuration field — `step` mutates only the
stored agent position (`reset` additionally advances the random-source
cursor, which models the external numpy generator, not an environment
attribute) — and the goal cell of a constructed environment is never an
obstacle. -/
theorem env_frame_condition :
    (∀ (e : StaticGridEnv)
       (h : ∃ k, validStart e.obstacles e.goal (e.rng (e.rngIdx + k))),
      ((e.reset h).2).grid_size = e.grid_size ∧
      ((e.reset h).2).cell_size = e.cell_size ∧
      ((e.reset h).2).obstacles = e.obstacles ∧
      ((e.reset h).2).goal = e.goal ∧
      ((e.reset h).2).action_space = e.action_space ∧
      ((e.reset h).2).observation_space = e.observation_space ∧
      ((e.reset h).2).rng = e.rng) ∧
    (∀ (e : StaticGridEnv) (a : ℤ) (r : Cell × ℤ × Bool) (e2 : StaticGridEnv),
      e.step a = some (r, e2) →
      e2.grid_size = e.grid_size ∧ e2.cell_size = e.cell_size ∧
      e2.obstacles = e.obstacles ∧ e2.goal = e.goal ∧
      e2.action_space = e.action_space ∧ e2.observation_space = e.observation_space ∧
      e2.rng = e.rng ∧ e2.rngIdx = e.rngIdx ∧ e2.state = some r.1) ∧
    (∀ s : ℕ → Cell, (mkSeeded s).goal ∉ (mkSeeded s).obstacles) := by
  refine ⟨fun e h => ⟨rfl, rfl, rfl, rfl, rfl, rfl, rfl⟩, ?_, ?_⟩
  case refine_2 =>
    intro s
    show ((10 - 1, 10 - 1) : Cell) ∉ obstaclesList
    decide
  intro e a r e2 he
  cases hst : e.state with
  | none => simp [StaticGridEnv.step, hst] at he
  | some p =>
      simp only [StaticGridEnv.step, hst, Option.some.injEq, Prod.mk.injEq] at he
      obtain ⟨hr, he2⟩ := he
      subst he2
      exact ⟨rfl, rfl, rfl, rfl, rfl, rfl, rfl, rfl, by rw [← hr]⟩

/-- C8, witness: a reset on `sampleEnv` and the concrete blocked step
`sampleEnv.step 0`. -/
theorem env_frame_condition_witness :
    (((sampleEnv.reset sampleSeedOkE).2).grid_size = sampleEnv.grid_size ∧
     ((sampleEnv.reset sampleSeedOkE).2).cell_size = sampleEnv.cell_size ∧
     ((sampleEnv.reset sampleSeedOkE).2).obstacles = sampleEnv.obstacles ∧
     ((sampleEnv.reset sampleSeedOkE).2).goal = sampleEnv.goal ∧
     ((sampleEnv.reset sampleSeedOkE).2).action_space = sampleEnv.action_space ∧
     ((sampleEnv.reset sampleSeedOkE).2).observation_space = sampleEnv.observation_space ∧
     ((sampleEnv.reset sampleSeedOkE).2).rng = sampleEnv.rng) ∧
    (sampleEnvStepped.grid_size = sampleEnv.grid_size ∧
     sampleEnvStepped.cell_size = sampleEnv.cell_size ∧
     sampleEnvStepped.obstacles = sampleEnv.obstacles ∧
     sampleEnvStepped.goal = sampleEnv.goal ∧
     sampleEnvStepped.action_space = sampleEnv.action_space ∧
     sampleEnvStepped.observation_space = sampleEnv.observation_space ∧
     sampleEnvStepped.rng = sampleEnv.rng ∧
     sampleEnvStepped.rngIdx = sampleEnv.rngIdx ∧
     sampleEnvStepped.state = some (((0 : ℤ), (0 : ℤ)), (-1 : ℤ), false).1) ∧
    (mkSeeded sampleStream).goal ∉ (mkSeeded sampleStream).obstacles :=
  ⟨env_frame_condition.1 sampleEnv sampleSeedOkE,
   env_frame_condition.2.1 sampleEnv 0 (((0 : ℤ), (0 : ℤ)), -1, false) sampleEnvStepped rfl,
   env_frame_condition.2.2 sampleStream⟩

/-- C9: `plot_comparison_with_baseline` fails with a validation error if and
only if the algorithm label is neither "Q-learning" nor "SARSA"; in the error
case the result is the validation error itself, independent of every other
argument (no chart is produced and the run table is not read). -/
theorem plot_algorithm_validation :
    (∀ (availability : ℚ) (df : List RunRow) (baseline : ℚ × ℚ × ℚ)
       (accuracies : Option (List ℚ)) (algorithm : String),
      (∃ c, plot_comparison_with_baseline availability df baseline accuracies algorithm =
          Except.ok c) ↔ (algorithm = "Q-learning" ∨ algorithm = "SARSA")) ∧
    (∀ (availability availability2 : ℚ) (df df2 : List RunRow)
       (baseline baseline2 : ℚ × ℚ × ℚ) (accuracies accuracies2 : Option (List ℚ))
       (algorithm : String), algorithm ≠ "Q-learning" → algorithm ≠ "SARSA" →
      plot_comparison_with_baseline availability df baseline accuracies algorithm =
        Except.error "Algorithm must be either Q-learning or SARSA" ∧
      plot_comparison_with_baseline availability df baseline accuracies algorithm =
        plot_comparison_with_baseline availability2 df2 baseline2 accuracies2 algorithm) := by
  constructor
  · intro av df bl accs alg
    constructor
    · rintro ⟨c, hc⟩
      by_contra hno
      unfold plot_comparison_with_baseline at hc
      rw [if_neg hno] at hc
      exact Except.noConfusion hc
    · intro hv
      exact ⟨_, by unfold plot_comparison_with_baseline; rw [if_pos hv]⟩
  · intro av av2 df df2 bl bl2 accs accs2 alg h1 h2
    have hno : ¬(alg = "Q-learning" ∨ alg = "SARSA") := by tauto
    constructor <;> unfold plot_comparison_with_baseline <;> simp only [if_neg hno]

/-- C9, witness with the invalid algorithm label "DQN". -/
theorem plot_algorithm_validation_witness :
    plot_comparison_with_baseline 0 [] (0, 0, 0) none "DQN" =
      Except.error "Algorithm must be either Q-learning or SARSA" ∧
    plot_comparison_with_baseline 0 [] (0, 0, 0) none "DQN" =
      plot_comparison_with_baseline 1 [] (1, 1, 1) (some []) "DQN" :=
  plot_algorithm_validation.2 0 1 [] [] (0, 0, 0) (1, 1, 1) none (some []) "DQN"
    (by decide) (by decide)

/-- C10: after construction and before the first `reset`, the agent position
is `None` and `step` fails for every action (the destructuring of the `None`
state is modelled by `step` returning `none`); after a `reset` has been
performed, `step` succeeds. -/
theorem step_before_reset_fails :
    (∀ s : ℕ → Cell, (mkSeeded s).state = none ∧ ∀ a : ℤ, (mkSeeded s).step a = none) ∧
    (∀ (e : StaticGridEnv)
       (h : ∃ k, validStart e.obstacles e.goal (e.rng (e.rngIdx + k)))
       (a : ℤ), (((e.reset h).2).step a).isSome = true) :=
  ⟨fun _ => ⟨rfl, fun _ => rfl⟩, fun _ _ _ => rfl⟩

/-- C10, witness on the sample stream. -/
theorem step_before_reset_fails_witness :
    ((((mkSeeded sampleStream).reset sampleSeedOk).2).step 0).isSome = true :=
  step_before_reset_fails.2 (mkSeeded sampleStream) sampleSeedOk 0

end WeatherPredictor
